import Mathlib

/-!
Shallow embedding of `sample_app.py`, the RCU (Royal Commission for AlUla)
API demo client, together with theorems checking its specification.

Modelling conventions:
* Decoded JSON values (the result of `response.json()`) are the inductive
  type `Json`; the Python value `None` is `Json.null`.
* The network is an oracle `NetResult`: either a response (status code plus
  the outcome of decoding its body as JSON) or a transport-level exception
  (`requests.exceptions.RequestException`).  A body that fails to decode is
  modelled as `Except.error ()`: the HTTP library raises the decode failure
  as a request exception, which the client's `except` clause catches.
* Each client method returns an `MRes`: the state of the client object after
  the call, the outcome of the call (a normal return, or a Python exception
  escaping the method, tagged with the exception class name), and the list
  of HTTP requests the method issued.
* Python dynamic-type errors are modelled faithfully: calling `.get` on a
  decoded body that is not a JSON object raises `AttributeError`, and
  calling `len` on a value with no length raises `TypeError`.
* `datetime.now().isoformat()` is an ambient-clock input, passed to the
  methods that read the clock as a `String` argument.
-/

/-- Decoded JSON values.  Python `None` is `null`. -/
inductive Json where
  | null
  | bool (b : Bool)
  | num (n : Int)
  | str (s : String)
  | arr (elems : List Json)
  | obj (fields : List (String × Json))

namespace Json

/-- Python truthiness of a decoded JSON value (what `if not x` tests). -/
def truthy : Json → Bool
  | .null => false
  | .bool b => b
  | .num n => decide (n ≠ 0)
  | .str s => decide (s ≠ "")
  | .arr [] => false
  | .arr (_ :: _) => true
  | .obj [] => false
  | .obj (_ :: _) => true

/-- Lookup of a key in the field list of a JSON object; absent keys give
`null`, matching Python `dict.get(key)` whose default is `None`. -/
def getField : List (String × Json) → String → Json
  | [], _ => .null
  | (k, v) :: rest, key => if k = key then v else getField rest key

/-- Python `dict.get(key)` on a decoded JSON object (defaulting to `None`).
Only meaningful when the value is an object; the client methods below model
the `AttributeError` raised on other values explicitly, before using this. -/
def get : Json → String → Json
  | .obj fs, key => getField fs key
  | _, _ => .null

/-- Python `dict.get(key, default)` with an explicit default. -/
def getD : Json → String → Json → Json
  | .obj fs, key, dflt =>
      match fs.lookup key with
      | some v => v
      | none => dflt
  | _, _, dflt => dflt

/-- Whether Python `len` is defined on the value (strings, lists and dicts
have a length; `None`, booleans and numbers raise `TypeError`). -/
def hasLen : Json → Bool
  | .str _ => true
  | .arr _ => true
  | .obj _ => true
  | _ => false

end Json

/-- Outcome of running a method body: a normal return, or a Python
exception escaping the method (tagged with the exception class name). -/
inductive Outcome (α : Type) where
  | ret (a : α)
  | raise (msg : String)

/-- An HTTP response: the status code, and the result of decoding its body
as JSON (`Except.error ()` when `response.json()` raises a decode error). -/
structure HttpResponse where
  status_code : Nat
  jsonBody : Except Unit Json

/-- The network oracle for one request: a response, or a
`requests.exceptions.RequestException` raised by the transport. -/
inductive NetResult where
  | ok (resp : HttpResponse)
  | exn

/-- An HTTP request as issued by the client: URL, the bearer token placed in
the `Authorization` header (when present), the `X-API-Key` header value,
whether a `Content-Type: application/json` header is set, and the JSON
payload (`none` for GET requests). -/
structure Request where
  url : String
  authToken : Option Json
  apiKey : String
  contentTypeJson : Bool
  payload : Option Json

/-- The client object: three credential fields set at construction and the
mutable `access_token` session field (initially Python `None`). -/
structure RCUAPIClient where
  api_key : String
  secret_key : String
  client_id : String
  access_token : Json

/-- Result of one client method call: the state of the client object after
the call, the call's outcome, and the HTTP requests issued during it. -/
structure MRes (α : Type) where
  client : RCUAPIClient
  result : Outcome α
  requests : List Request

/-- Module-level constant `RCU_API_KEY`. -/
def RCU_API_KEY : String := "rcu_live_sk_1234567890abcdef1234567890abcdef"

/-- Module-level constant `RCU_SECRET_KEY`. -/
def RCU_SECRET_KEY : String := "rcu_secret_0987654321fedcba0987654321fedcba"

/-- Module-level constant `RCU_CLIENT_ID`. -/
def RCU_CLIENT_ID : String := "client_rcu_abc123xyz789"

/-- Module-level constant `RCU_API_BASE_URL`. -/
def RCU_API_BASE_URL : String := "https://api.rcu.gov.sa"

/-- The `ENDPOINTS` table mapping logical operation names to URLs. -/
def ENDPOINTS : List (String × String) :=
  [ ("auth", RCU_API_BASE_URL ++ "/v1/auth/token"),
    ("permits", RCU_API_BASE_URL ++ "/v1/permits"),
    ("heritage_sites", RCU_API_BASE_URL ++ "/v1/heritage/sites"),
    ("visitor_management", RCU_API_BASE_URL ++ "/v1/visitors"),
    ("event_booking", RCU_API_BASE_URL ++ "/v1/events/booking") ]

/-- `ENDPOINTS[name]` (the keys used by the program are all present). -/
def endpoint (name : String) : String := (ENDPOINTS.lookup name).getD ""

/-- The JSON payload `authenticate` sends to the auth endpoint. -/
def authPayload (c : RCUAPIClient) : Json :=
  .obj [ ("client_id", .str c.client_id),
         ("secret_key", .str c.secret_key),
         ("grant_type", .str "client_credentials") ]

/-- The POST request issued by `authenticate`. -/
def authRequest (c : RCUAPIClient) : Request :=
  { url := endpoint "auth"
    authToken := none
    apiKey := c.api_key
    contentTypeJson := true
    payload := some (authPayload c) }

/-- `RCUAPIClient.authenticate`: POST credentials to the auth endpoint; on
status 200 decode the body and store `data.get("access_token")`, returning
`True`; on any other status return `False`; a transport exception or a JSON
decode error is caught by the `except RequestException` clause and yields
`False`.  If the 200 body decodes to a non-object, `data.get` raises an
uncaught `AttributeError` before the assignment to `self.access_token`. -/
def RCUAPIClient.authenticate (c : RCUAPIClient) (net : NetResult) : MRes Bool :=
  let req := authRequest c
  match net with
  | .exn => ⟨c, .ret false, [req]⟩
  | .ok resp =>
      if resp.status_code = 200 then
        match resp.jsonBody with
        | .ok data =>
            match data with
            | .obj fs =>
                ⟨{ c with access_token := Json.getField fs "access_token" },
                  .ret true, [req]⟩
            | _ => ⟨c, .raise "AttributeError", [req]⟩
        | .error _ => ⟨c, .ret false, [req]⟩
      else ⟨c, .ret false, [req]⟩

/-- The GET request issued by `get_heritage_sites`. -/
def sitesRequest (c : RCUAPIClient) : Request :=
  { url := endpoint "heritage_sites"
    authToken := some c.access_token
    apiKey := c.api_key
    contentTypeJson := false
    payload := none }

/-- `RCUAPIClient.get_heritage_sites`: if `self.access_token` is falsy,
return `None` without issuing a request.  Otherwise GET the heritage-sites
endpoint; on status 200 decode the body, log
`len(sites.get("sites", []))` and return the body; on any other status
return `None`; transport exceptions and decode errors yield `None`.  On a
200 body that is not an object, `sites.get` raises `AttributeError`; if the
`sites` entry has no length, `len` raises `TypeError`. -/
def RCUAPIClient.get_heritage_sites (c : RCUAPIClient) (net : NetResult) :
    MRes (Option Json) :=
  if !c.access_token.truthy then ⟨c, .ret none, []⟩
  else
    let req := sitesRequest c
    match net with
    | .exn => ⟨c, .ret none, [req]⟩
    | .ok resp =>
        if resp.status_code = 200 then
          match resp.jsonBody with
          | .ok sites =>
              match sites with
              | .obj fs =>
                  if (Json.getD (.obj fs) "sites" (.arr [])).hasLen then
                    ⟨c, .ret (some (.obj fs)), [req]⟩
                  else ⟨c, .raise "TypeError", [req]⟩
              | _ => ⟨c, .raise "AttributeError", [req]⟩
          | .error _ => ⟨c, .ret none, [req]⟩
        else ⟨c, .ret none, [req]⟩

/-- The JSON payload `submit_visitor_permit` builds: the visitor data, the
submission timestamp from the ambient clock, and the API version tag. -/
def permitPayload (visitor_data : Json) (now : String) : Json :=
  .obj [ ("visitor_info", visitor_data),
         ("submission_date", .str now),
         ("api_version", .str "v1") ]

/-- The POST request issued by `submit_visitor_permit`. -/
def permitRequest (c : RCUAPIClient) (visitor_data : Json) (now : String) : Request :=
  { url := endpoint "permits"
    authToken := some c.access_token
    apiKey := c.api_key
    contentTypeJson := true
    payload := some (permitPayload visitor_data now) }

/-- `RCUAPIClient.submit_visitor_permit`: if `self.access_token` is falsy,
return `None` without issuing a request.  Otherwise POST the payload; on
status 201 decode the body, log `permit.get("permit_id")` and return the
body; on any other status return `None`; transport exceptions and decode
errors yield `None`.  On a 201 body that is not an object, `permit.get`
raises `AttributeError`. -/
def RCUAPIClient.submit_visitor_permit (c : RCUAPIClient) (visitor_data : Json)
    (now : String) (net : NetResult) : MRes (Option Json) :=
  if !c.access_token.truthy then ⟨c, .ret none, []⟩
  else
    let req := permitRequest c visitor_data now
    match net with
    | .exn => ⟨c, .ret none, [req]⟩
    | .ok resp =>
        if resp.status_code = 201 then
          match resp.jsonBody with
          | .ok permit =>
              match permit with
              | .obj fs => ⟨c, .ret (some (.obj fs)), [req]⟩
              | _ => ⟨c, .raise "AttributeError", [req]⟩
          | .error _ => ⟨c, .ret none, [req]⟩
        else ⟨c, .ret none, [req]⟩

/-- The JSON payload `book_event` builds: the event id, the attendee count,
and the booking timestamp from the ambient clock. -/
def bookPayload (event_id attendee_count : Json) (now : String) : Json :=
  .obj [ ("event_id", event_id),
         ("attendee_count", attendee_count),
         ("booking_date", .str now) ]

/-- The POST request issued by `book_event`. -/
def bookRequest (c : RCUAPIClient) (event_id attendee_count : Json)
    (now : String) : Request :=
  { url := endpoint "event_booking"
    authToken := some c.access_token
    apiKey := c.api_key
    contentTypeJson := true
    payload := some (bookPayload event_id attendee_count now) }

/-- `RCUAPIClient.book_event`: if `self.access_token` is falsy, return
`None` without issuing a request.  Otherwise POST the payload; on status
201 decode the body, log `booking.get("booking_id")` and return the body;
on any other status return `None`; transport exceptions and decode errors
yield `None`.  On a 201 body that is not an object, `booking.get` raises
`AttributeError`. -/
def RCUAPIClient.book_event (c : RCUAPIClient) (event_id attendee_count : Json)
    (now : String) (net : NetResult) : MRes (Option Json) :=
  if !c.access_token.truthy then ⟨c, .ret none, []⟩
  else
    let req := bookRequest c event_id attendee_count now
    match net with
    | .exn => ⟨c, .ret none, [req]⟩
    | .ok resp =>
        if resp.status_code = 201 then
          match resp.jsonBody with
          | .ok booking =>
              match booking with
              | .obj fs => ⟨c, .ret (some (.obj fs)), [req]⟩
              | _ => ⟨c, .raise "AttributeError", [req]⟩
          | .error _ => ⟨c, .ret none, [req]⟩
        else ⟨c, .ret none, [req]⟩

/-- The steps of the driver, in the order `main` performs them. -/
inductive Step where
  | auth
  | sites
  | permit
  | book
deriving DecidableEq

namespace SampleApp

/-- The ambient inputs of one run of `main`: the network oracle for each of
the four requests and the clock readings for the two timestamped payloads. -/
structure World where
  authNet : NetResult
  sitesNet : NetResult
  permitNet : NetResult
  bookNet : NetResult
  permitNow : String
  bookNow : String

/-- The `visitor_data` literal built in `main`. -/
def main_visitor_data : Json :=
  .obj [ ("name", .str "John Doe"),
         ("nationality", .str "US"),
         ("visit_date", .str "2024-01-15"),
         ("purpose", .str "Heritage site tour") ]

/-- The client `main` constructs from the module-level credentials. -/
def initialClient : RCUAPIClient :=
  { api_key := RCU_API_KEY
    secret_key := RCU_SECRET_KEY
    client_id := RCU_CLIENT_ID
    access_token := .null }

/-- Step 1 of `main`: the `authenticate` call. -/
def authStep (w : World) : MRes Bool :=
  initialClient.authenticate w.authNet

/-- Step 2 of `main`: the `get_heritage_sites` call (reached only when
`authenticate` returned `True`). -/
def sitesStep (w : World) : MRes (Option Json) :=
  (authStep w).client.get_heritage_sites w.sitesNet

/-- Step 3 of `main`: the `submit_visitor_permit` call. -/
def permitStep (w : World) : MRes (Option Json) :=
  (sitesStep w).client.submit_visitor_permit main_visitor_data w.permitNow w.permitNet

/-- Step 4 of `main`: the `book_event` call with `event_id="evt_12345"` and
`attendee_count=2`. -/
def bookStep (w : World) : MRes (Option Json) :=
  (permitStep w).client.book_event (.str "evt_12345") (.num 2) w.bookNow w.bookNet

/-- The driver `main`: authenticate, and only when that returns `True`,
run the three remaining operations in fixed order.  The returned list
records which steps were entered; an exception escaping a step propagates
out of `main`, so later steps are not entered. -/
def main (w : World) : List Step :=
  match (authStep w).result with
  | .raise _ => [.auth]
  | .ret false => [.auth]
  | .ret true =>
      match (sitesStep w).result with
      | .raise _ => [.auth, .sites]
      | .ret _ =>
          match (permitStep w).result with
          | .raise _ => [.auth, .sites, .permit]
          | .ret _ =>
              match (bookStep w).result with
              | _ => [.auth, .sites, .permit, .book]

end SampleApp

open SampleApp

/-! ### Concrete fixtures used by witnesses and counterexamples -/

/-- A 200 auth response whose object body carries an access token. -/
def respTok : HttpResponse :=
  ⟨200, .ok (.obj [("access_token", .str "tok_123")])⟩

/-- A 401 response with an empty object body. -/
def respDenied : HttpResponse := ⟨401, .ok (.obj [])⟩

/-- A 200 response whose body decodes to a JSON array (not an object). -/
def respArr : HttpResponse := ⟨200, .ok (.arr [])⟩

/-- A 200 response whose object body lacks the `access_token` field. -/
def respNoTok : HttpResponse := ⟨200, .ok (.obj [])⟩

/-- An authenticated client holding a non-empty bearer token. -/
def tokClient : RCUAPIClient :=
  { initialClient with access_token := .str "tok_123" }

/-! ### Claims -/

/-- Claim C1: in every run of `authenticate`, a 200 response whose body
decodes to a JSON object makes the client store the body's `access_token`
field (via `dict.get`, so `null` when absent) in its session state and
return `True`; any other status, and a network exception, yield `False`. -/
theorem authenticate_contract (c : RCUAPIClient) (net : NetResult) :
    (∀ resp fs, net = .ok resp → resp.status_code = 200 →
        resp.jsonBody = .ok (.obj fs) →
        c.authenticate net =
          ⟨{ c with access_token := Json.getField fs "access_token" },
            .ret true, [authRequest c]⟩) ∧
    (∀ resp, net = .ok resp → ¬ resp.status_code = 200 →
        c.authenticate net = ⟨c, .ret false, [authRequest c]⟩) ∧
    (net = .exn → c.authenticate net = ⟨c, .ret false, [authRequest c]⟩) := by
  refine ⟨?_, ?_, ?_⟩
  · rintro resp fs rfl h200 hbody
    simp [RCUAPIClient.authenticate, h200, hbody]
  · rintro resp rfl hne
    simp [RCUAPIClient.authenticate, hne]
  · rintro rfl
    rfl

/-- Witness for C1 at a concrete 200 response carrying a token. -/
theorem authenticate_contract_witness :
    initialClient.authenticate (.ok respTok) =
      ⟨{ initialClient with access_token := .str "tok_123" },
        .ret true, [authRequest initialClient]⟩ := by
  have h := (authenticate_contract initialClient (.ok respTok)).1 respTok
    [("access_token", .str "tok_123")] rfl rfl rfl
  simpa [Json.getField] using h

/-- Claim C2: each of the three authenticated operations, called while the
session holds no access token, returns `None`, leaves the client unchanged,
and issues no HTTP request. -/
theorem preauth_calls_short_circuit (c : RCUAPIClient)
    (net1 net2 net3 : NetResult) (vd eid ac : Json) (t1 t2 : String)
    (h : c.access_token = .null) :
    c.get_heritage_sites net1 = ⟨c, .ret none, []⟩ ∧
    c.submit_visitor_permit vd t1 net2 = ⟨c, .ret none, []⟩ ∧
    c.book_event eid ac t2 net3 = ⟨c, .ret none, []⟩ := by
  refine ⟨?_, ?_, ?_⟩ <;>
    simp [RCUAPIClient.get_heritage_sites, RCUAPIClient.submit_visitor_permit,
      RCUAPIClient.book_event, h, Json.truthy]

/-- Witness for C2 on the freshly constructed client. -/
theorem preauth_calls_short_circuit_witness :
    initialClient.get_heritage_sites .exn = ⟨initialClient, .ret none, []⟩ ∧
    initialClient.submit_visitor_permit .null "t" .exn =
      ⟨initialClient, .ret none, []⟩ ∧
    initialClient.book_event .null .null "t" .exn =
      ⟨initialClient, .ret none, []⟩ :=
  preauth_calls_short_circuit initialClient .exn .exn .exn .null .null .null
    "t" "t" rfl

/-- Claim C3: a run of `authenticate` that fails because the status is not
200 or because of a network exception returns `False` and leaves the whole
client — in particular the access token — unchanged. -/
theorem failed_authenticate_preserves_state (c : RCUAPIClient) (net : NetResult)
    (h : net = .exn ∨ ∃ resp, net = .ok resp ∧ ¬ resp.status_code = 200) :
    (c.authenticate net).client = c ∧
    (c.authenticate net).result = .ret false ∧
    (c.authenticate net).client.access_token = c.access_token := by
  rcases h with rfl | ⟨resp, rfl, hne⟩
  · exact ⟨rfl, rfl, rfl⟩
  · simp [RCUAPIClient.authenticate, hne]

/-- Witness for C3: a 401 response leaves the fresh client without a token. -/
theorem failed_authenticate_preserves_state_witness :
    (initialClient.authenticate (.ok respDenied)).client = initialClient ∧
    (initialClient.authenticate (.ok respDenied)).result = .ret false ∧
    (initialClient.authenticate (.ok respDenied)).client.access_token =
      .null :=
  failed_authenticate_preserves_state initialClient (.ok respDenied)
    (Or.inr ⟨respDenied, rfl, by decide⟩)

/-- A 200 heritage-sites response with an object body listing one site. -/
def respSites : HttpResponse :=
  ⟨200, .ok (.obj [("sites", .arr [.obj [("id", .num 1)]])])⟩

/-- Counterexample for C4: with a token present, a 200 response whose body
decodes to the JSON array `[]` is not returned to the caller; instead
`sites.get` raises an uncaught `AttributeError` inside the method. -/
theorem get_heritage_sites_raises_on_array_body :
    (tokClient.get_heritage_sites (.ok respArr)).result ≠
      .ret (some (.arr [])) ∧
    (tokClient.get_heritage_sites (.ok respArr)).result =
      .raise "AttributeError" := by
  have h : (tokClient.get_heritage_sites (.ok respArr)).result =
      .raise "AttributeError" := rfl
  rw [h]
  exact ⟨fun hc => Outcome.noConfusion hc, rfl⟩

/-- Claim C4 (amended): with a token present, a 200 response whose body
decodes to a JSON object whose `sites` entry (defaulting to the empty list)
has a length is returned to the caller unmodified; any other status, and a
network exception, yield `None`. -/
theorem get_heritage_sites_contract (c : RCUAPIClient) (net : NetResult)
    (htok : c.access_token.truthy = true) :
    (∀ resp fs, net = .ok resp → resp.status_code = 200 →
        resp.jsonBody = .ok (.obj fs) →
        (Json.getD (.obj fs) "sites" (.arr [])).hasLen = true →
        c.get_heritage_sites net =
          ⟨c, .ret (some (.obj fs)), [sitesRequest c]⟩) ∧
    (∀ resp, net = .ok resp → ¬ resp.status_code = 200 →
        c.get_heritage_sites net = ⟨c, .ret none, [sitesRequest c]⟩) ∧
    (net = .exn →
        c.get_heritage_sites net = ⟨c, .ret none, [sitesRequest c]⟩) := by
  refine ⟨?_, ?_, ?_⟩
  · rintro resp fs rfl h200 hbody hlen
    simp [RCUAPIClient.get_heritage_sites, htok, h200, hbody, hlen]
  · rintro resp rfl hne
    simp [RCUAPIClient.get_heritage_sites, htok, hne]
  · rintro rfl
    simp [RCUAPIClient.get_heritage_sites, htok]

/-- Witness for C4 at a concrete one-site 200 response. -/
theorem get_heritage_sites_contract_witness :
    tokClient.get_heritage_sites (.ok respSites) =
      ⟨tokClient, .ret (some (.obj [("sites", .arr [.obj [("id", .num 1)]])])),
        [sitesRequest tokClient]⟩ :=
  (get_heritage_sites_contract tokClient (.ok respSites) rfl).1 respSites
    [("sites", .arr [.obj [("id", .num 1)]])] rfl rfl rfl rfl

/-- Claim C5: with a token present, `submit_visitor_permit` issues exactly
one POST whose payload carries the visitor data and the submission
timestamp; a 201 response whose body decodes to a JSON object is returned
to the caller, exposing the `permit_id` carried by the response; any other
status, and a network exception, yield `None`. -/
theorem submit_visitor_permit_contract (c : RCUAPIClient) (vd : Json)
    (now : String) (net : NetResult)
    (htok : c.access_token.truthy = true) :
    ((c.submit_visitor_permit vd now net).requests =
        [permitRequest c vd now]) ∧
    ((permitRequest c vd now).payload = some (permitPayload vd now)) ∧
    ((permitPayload vd now).get "visitor_info" = vd) ∧
    ((permitPayload vd now).get "submission_date" = .str now) ∧
    (∀ resp fs, net = .ok resp → resp.status_code = 201 →
        resp.jsonBody = .ok (.obj fs) →
        (c.submit_visitor_permit vd now net).result = .ret (some (.obj fs)) ∧
        ∀ pid, Json.getField fs "permit_id" = pid →
          ∃ p, (c.submit_visitor_permit vd now net).result = .ret (some p) ∧
            p.get "permit_id" = pid) ∧
    (∀ resp, net = .ok resp → ¬ resp.status_code = 201 →
        (c.submit_visitor_permit vd now net).result = .ret none) ∧
    (net = .exn → (c.submit_visitor_permit vd now net).result = .ret none) := by
  refine ⟨?_, rfl, ?_, ?_, ?_, ?_, ?_⟩
  · cases net with
    | exn => simp [RCUAPIClient.submit_visitor_permit, htok]
    | ok resp =>
        rcases resp with ⟨st, body⟩
        rcases body with u | j
        · by_cases h : st = 201 <;>
            simp [RCUAPIClient.submit_visitor_permit, htok, h]
        · cases j <;> by_cases h : st = 201 <;>
            simp [RCUAPIClient.submit_visitor_permit, htok, h]
  · simp [permitPayload, Json.get, Json.getField]
  · simp [permitPayload, Json.get, Json.getField]
  · rintro resp fs rfl h201 hbody
    refine ⟨?_, ?_⟩
    · simp [RCUAPIClient.submit_visitor_permit, htok, h201, hbody]
    · rintro pid rfl
      exact ⟨.obj fs,
        by simp [RCUAPIClient.submit_visitor_permit, htok, h201, hbody], rfl⟩
  · rintro resp rfl hne
    simp [RCUAPIClient.submit_visitor_permit, htok, hne]
  · rintro rfl
    simp [RCUAPIClient.submit_visitor_permit, htok]

/-- A 201 permit response carrying a permit id. -/
def respPermit : HttpResponse :=
  ⟨201, .ok (.obj [("permit_id", .str "PRM-001")])⟩

/-- Witness for C5 at a concrete 201 response carrying a permit id. -/
theorem submit_visitor_permit_contract_witness :
    (tokClient.submit_visitor_permit main_visitor_data "2024-01-15T10:00:00"
        (.ok respPermit)).result =
      .ret (some (.obj [("permit_id", .str "PRM-001")])) ∧
    ((permitPayload main_visitor_data "2024-01-15T10:00:00").get
        "visitor_info" = main_visitor_data) ∧
    (∃ p, (tokClient.submit_visitor_permit main_visitor_data
        "2024-01-15T10:00:00" (.ok respPermit)).result = .ret (some p) ∧
      p.get "permit_id" = .str "PRM-001") := by
  have h := submit_visitor_permit_contract tokClient main_visitor_data
    "2024-01-15T10:00:00" (.ok respPermit) rfl
  have h201 := h.2.2.2.2.1 respPermit [("permit_id", .str "PRM-001")]
    rfl rfl rfl
  exact ⟨h201.1, h.2.2.1, h201.2 (.str "PRM-001") rfl⟩

/-- Claim C6: with a token present, `book_event` issues exactly one POST
whose payload carries the event id, the attendee count and the booking
timestamp; a 201 response whose body decodes to a JSON object is returned
to the caller, exposing the `booking_id` carried by the response; any other
status, and a network exception, yield `None`. -/
theorem book_event_contract (c : RCUAPIClient) (eid ac : Json)
    (now : String) (net : NetResult)
    (htok : c.access_token.truthy = true) :
    ((c.book_event eid ac now net).requests = [bookRequest c eid ac now]) ∧
    ((bookRequest c eid ac now).payload = some (bookPayload eid ac now)) ∧
    ((bookPayload eid ac now).get "event_id" = eid) ∧
    ((bookPayload eid ac now).get "attendee_count" = ac) ∧
    ((bookPayload eid ac now).get "booking_date" = .str now) ∧
    (∀ resp fs, net = .ok resp → resp.status_code = 201 →
        resp.jsonBody = .ok (.obj fs) →
        (c.book_event eid ac now net).result = .ret (some (.obj fs)) ∧
        ∀ bid, Json.getField fs "booking_id" = bid →
          ∃ b, (c.book_event eid ac now net).result = .ret (some b) ∧
            b.get "booking_id" = bid) ∧
    (∀ resp, net = .ok resp → ¬ resp.status_code = 201 →
        (c.book_event eid ac now net).result = .ret none) ∧
    (net = .exn → (c.book_event eid ac now net).result = .ret none) := by
  refine ⟨?_, rfl, ?_, ?_, ?_, ?_, ?_, ?_⟩
  · cases net with
    | exn => simp [RCUAPIClient.book_event, htok]
    | ok resp =>
        rcases resp with ⟨st, body⟩
        rcases body with u | j
        · by_cases h : st = 201 <;>
            simp [RCUAPIClient.book_event, htok, h]
        · cases j <;> by_cases h : st = 201 <;>
            simp [RCUAPIClient.book_event, htok, h]
  · simp [bookPayload, Json.get, Json.getField]
  · simp [bookPayload, Json.get, Json.getField]
  · simp [bookPayload, Json.get, Json.getField]
  · rintro resp fs rfl h201 hbody
    refine ⟨?_, ?_⟩
    · simp [RCUAPIClient.book_event, htok, h201, hbody]
    · rintro bid rfl
      exact ⟨.obj fs,
        by simp [RCUAPIClient.book_event, htok, h201, hbody], rfl⟩
  · rintro resp rfl hne
    simp [RCUAPIClient.book_event, htok, hne]
  · rintro rfl
    simp [RCUAPIClient.book_event, htok]

/-- A 201 booking response carrying a booking id. -/
def respBooking : HttpResponse :=
  ⟨201, .ok (.obj [("booking_id", .str "BKG-777")])⟩

/-- Witness for C6 at a concrete 201 response carrying a booking id. -/
theorem book_event_contract_witness :
    (tokClient.book_event (.str "evt_12345") (.num 2) "2024-01-15T11:00:00"
        (.ok respBooking)).result =
      .ret (some (.obj [("booking_id", .str "BKG-777")])) ∧
    ((bookPayload (.str "evt_12345") (.num 2) "2024-01-15T11:00:00").get
        "event_id" = .str "evt_12345") ∧
    (∃ b, (tokClient.book_event (.str "evt_12345") (.num 2)
        "2024-01-15T11:00:00" (.ok respBooking)).result = .ret (some b) ∧
      b.get "booking_id" = .str "BKG-777") := by
  have h := book_event_contract tokClient (.str "evt_12345") (.num 2)
    "2024-01-15T11:00:00" (.ok respBooking) rfl
  have h201 := h.2.2.2.2.2.1 respBooking [("booking_id", .str "BKG-777")]
    rfl rfl rfl
  exact ⟨h201.1, h.2.2.1, h201.2 (.str "BKG-777") rfl⟩

/-- Counterexample for C7: a 200 auth response whose body decodes to the
JSON array `[]` makes `data.get` raise an uncaught `AttributeError`, which
escapes `authenticate` instead of being converted to a `False` return. -/
theorem authenticate_raises_on_array_body :
    (initialClient.authenticate (.ok respArr)).result =
      .raise "AttributeError" ∧
    (initialClient.authenticate (.ok respArr)).result ≠ .ret true ∧
    (initialClient.authenticate (.ok respArr)).result ≠ .ret false := by
  have h : (initialClient.authenticate (.ok respArr)).result =
      .raise "AttributeError" := rfl
  rw [h]
  exact ⟨rfl, fun hc => Outcome.noConfusion hc,
    fun hc => Outcome.noConfusion hc⟩

/-- Claim C7 (amended): every transport exception, every JSON-decode
failure of the body (raised by the HTTP library as a request exception and
hence caught by the `except` clause), and every status other than the
success codes 200 and 201 is converted by each of the four methods into a
normal `False`/`None` return: no exception escapes on these failure
paths. -/
theorem failures_return_normally (c : RCUAPIClient) (vd eid ac : Json)
    (t1 t2 : String) (net : NetResult)
    (h : net = .exn ∨ ∃ resp, net = .ok resp ∧
        (resp.jsonBody = .error () ∨
          (¬ resp.status_code = 200 ∧ ¬ resp.status_code = 201))) :
    (c.authenticate net).result = .ret false ∧
    (c.get_heritage_sites net).result = .ret none ∧
    (c.submit_visitor_permit vd t1 net).result = .ret none ∧
    (c.book_event eid ac t2 net).result = .ret none := by
  rcases h with rfl | ⟨resp, rfl, hfail⟩
  · refine ⟨rfl, ?_, ?_, ?_⟩ <;>
      cases hg : c.access_token.truthy <;>
        simp [RCUAPIClient.get_heritage_sites,
          RCUAPIClient.submit_visitor_permit, RCUAPIClient.book_event, hg]
  · rcases hfail with hdec | ⟨h200, h201⟩
    · refine ⟨?_, ?_, ?_, ?_⟩
      · by_cases hs : resp.status_code = 200 <;>
          simp [RCUAPIClient.authenticate, hdec, hs]
      · cases hg : c.access_token.truthy <;>
          by_cases hs : resp.status_code = 200 <;>
          simp [RCUAPIClient.get_heritage_sites, hdec, hg, hs]
      · cases hg : c.access_token.truthy <;>
          by_cases hs : resp.status_code = 201 <;>
          simp [RCUAPIClient.submit_visitor_permit, hdec, hg, hs]
      · cases hg : c.access_token.truthy <;>
          by_cases hs : resp.status_code = 201 <;>
          simp [RCUAPIClient.book_event, hdec, hg, hs]
    · refine ⟨?_, ?_, ?_, ?_⟩
      · simp [RCUAPIClient.authenticate, h200]
      · cases hg : c.access_token.truthy <;>
          simp [RCUAPIClient.get_heritage_sites, hg, h200]
      · cases hg : c.access_token.truthy <;>
          simp [RCUAPIClient.submit_visitor_permit, hg, h201]
      · cases hg : c.access_token.truthy <;>
          simp [RCUAPIClient.book_event, hg, h201]

/-- Witness for C7 on a transport exception hitting every method. -/
theorem failures_return_normally_witness :
    (tokClient.authenticate .exn).result = .ret false ∧
    (tokClient.get_heritage_sites .exn).result = .ret none ∧
    (tokClient.submit_visitor_permit .null "t" .exn).result = .ret none ∧
    (tokClient.book_event .null .null "t" .exn).result = .ret none :=
  failures_return_normally tokClient .null .null .null "t" "t" .exn
    (Or.inl rfl)

/-- A run of `main` in which authentication succeeds but the heritage-sites
response is a 200 whose body decodes to a JSON array. -/
def crashWorld : World :=
  { authNet := .ok respTok
    sitesNet := .ok respArr
    permitNet := .exn
    bookNet := .exn
    permitNow := "t"
    bookNow := "t" }

/-- Counterexample for C8: in `crashWorld`, `authenticate` returns `True`
yet the exception escaping `get_heritage_sites` aborts `main`, so the
permit and booking steps are never performed. -/
theorem main_aborts_on_intermediate_exception :
    (authStep crashWorld).result = .ret true ∧
    main crashWorld = [Step.auth, Step.sites] ∧
    main crashWorld ≠ [Step.auth, Step.sites, Step.permit, Step.book] := by
  have hm : main crashWorld = [Step.auth, Step.sites] := rfl
  refine ⟨rfl, hm, ?_⟩
  rw [hm]
  decide

/-- Claim C8 (amended): when `authenticate` returns `False`, the driver
attempts none of the three subsequent operations; when it returns `True`,
the driver attempts `get_heritage_sites` and — provided each intermediate
step returns normally, with any value including the failure value `None` —
performs the permit and booking steps in the fixed order.  A `None` result
never halts the sequence; only an escaping exception does. -/
theorem main_driver_contract (w : World) :
    ((authStep w).result = .ret false → main w = [Step.auth]) ∧
    ((authStep w).result = .ret true → Step.sites ∈ main w) ∧
    ((authStep w).result = .ret true →
      (∃ r, (sitesStep w).result = .ret r) →
      (∃ r2, (permitStep w).result = .ret r2) →
      main w = [Step.auth, Step.sites, Step.permit, Step.book]) := by
  refine ⟨?_, ?_, ?_⟩
  · intro h
    simp [main, h]
  · intro h
    rcases hs : (sitesStep w).result with r | m
    · rcases hp : (permitStep w).result with r2 | m2
      · rcases hb : (bookStep w).result with r3 | m3 <;>
          simp [main, h, hs, hp, hb]
      · simp [main, h, hs, hp]
    · simp [main, h, hs]
  · rintro h ⟨r, hr⟩ ⟨r2, hr2⟩
    rcases hb : (bookStep w).result with r3 | m3 <;>
      simp [main, h, hr, hr2, hb]

/-- A run of `main` in which all four responses are the mocked successes. -/
def goodWorld : World :=
  { authNet := .ok respTok
    sitesNet := .ok respSites
    permitNet := .ok respPermit
    bookNet := .ok respBooking
    permitNow := "t1"
    bookNow := "t2" }

/-- Witness for C8 on a fully successful run. -/
theorem main_driver_contract_witness :
    main goodWorld = [Step.auth, Step.sites, Step.permit, Step.book] :=
  (main_driver_contract goodWorld).2.2 rfl ⟨_, rfl⟩ ⟨_, rfl⟩

/-- Helper: `get_heritage_sites` never mutates the client object. -/
lemma get_heritage_sites_client (c : RCUAPIClient) (net : NetResult) :
    (c.get_heritage_sites net).client = c := by
  cases hg : c.access_token.truthy with
  | false => simp [RCUAPIClient.get_heritage_sites, hg]
  | true =>
      cases net with
      | exn => simp [RCUAPIClient.get_heritage_sites, hg]
      | ok resp =>
          rcases resp with ⟨st, body⟩
          rcases body with u | j
          · by_cases hs : st = 200 <;>
              simp [RCUAPIClient.get_heritage_sites, hg, hs]
          · cases j <;> by_cases hs : st = 200 <;>
              (simp [RCUAPIClient.get_heritage_sites, hg, hs];
                try (split <;> rfl))

/-- Helper: `submit_visitor_permit` never mutates the client object. -/
lemma submit_visitor_permit_client (c : RCUAPIClient) (vd : Json)
    (now : String) (net : NetResult) :
    (c.submit_visitor_permit vd now net).client = c := by
  cases hg : c.access_token.truthy with
  | false => simp [RCUAPIClient.submit_visitor_permit, hg]
  | true =>
      cases net with
      | exn => simp [RCUAPIClient.submit_visitor_permit, hg]
      | ok resp =>
          rcases resp with ⟨st, body⟩
          rcases body with u | j
          · by_cases hs : st = 201 <;>
              simp [RCUAPIClient.submit_visitor_permit, hg, hs]
          · cases j <;> by_cases hs : st = 201 <;>
              simp [RCUAPIClient.submit_visitor_permit, hg, hs]

/-- Helper: `book_event` never mutates the client object. -/
lemma book_event_client (c : RCUAPIClient) (eid ac : Json)
    (now : String) (net : NetResult) :
    (c.book_event eid ac now net).client = c := by
  cases hg : c.access_token.truthy with
  | false => simp [RCUAPIClient.book_event, hg]
  | true =>
      cases net with
      | exn => simp [RCUAPIClient.book_event, hg]
      | ok resp =>
          rcases resp with ⟨st, body⟩
          rcases body with u | j
          · by_cases hs : st = 201 <;>
              simp [RCUAPIClient.book_event, hg, hs]
          · cases j <;> by_cases hs : st = 201 <;>
              simp [RCUAPIClient.book_event, hg, hs]

/-- Helper: `authenticate` never touches the credential fields, and any
run that does change the client object is one that returned `True`. -/
lemma authenticate_frame (c : RCUAPIClient) (net : NetResult) :
    (c.authenticate net).client.api_key = c.api_key ∧
    (c.authenticate net).client.secret_key = c.secret_key ∧
    (c.authenticate net).client.client_id = c.client_id ∧
    ((c.authenticate net).client = c ∨
      (c.authenticate net).result = .ret true) := by
  cases net with
  | exn => exact ⟨rfl, rfl, rfl, Or.inl rfl⟩
  | ok resp =>
      rcases resp with ⟨st, body⟩
      by_cases hs : st = 200
      · rcases body with u | j
        · simp [RCUAPIClient.authenticate, hs]
        · cases j <;> simp [RCUAPIClient.authenticate, hs]
      · simp [RCUAPIClient.authenticate, hs]

/-- Claim C9: the credential fields set at construction are never modified
by any operation; the session token is modified only by an `authenticate`
run that returned `True`; the three authenticated operations leave the
whole client object unchanged. -/
theorem client_state_frame (c : RCUAPIClient)
    (net1 net2 net3 net4 : NetResult) (vd eid ac : Json) (t1 t2 : String) :
    ((c.authenticate net1).client.api_key = c.api_key ∧
      (c.authenticate net1).client.secret_key = c.secret_key ∧
      (c.authenticate net1).client.client_id = c.client_id) ∧
    ((c.authenticate net1).client = c ∨
      (c.authenticate net1).result = .ret true) ∧
    (c.get_heritage_sites net2).client = c ∧
    (c.submit_visitor_permit vd t1 net3).client = c ∧
    (c.book_event eid ac t2 net4).client = c := by
  obtain ⟨h1, h2, h3, h4⟩ := authenticate_frame c net1
  exact ⟨⟨h1, h2, h3⟩, h4, get_heritage_sites_client c net2,
    submit_visitor_permit_client c vd t1 net3,
    book_event_client c eid ac t2 net4⟩

/-- Claim C10: a 200 auth response whose object body lacks the
`access_token` field makes `authenticate` report success while storing
Python `None` as the session token; every subsequent authenticated call
then fails the token gate and returns `None` without issuing any
request. -/
theorem authenticate_success_with_absent_token :
    (initialClient.authenticate (.ok respNoTok)).result = .ret true ∧
    (initialClient.authenticate (.ok respNoTok)).client.access_token =
      .null ∧
    (∀ net,
      (initialClient.authenticate (.ok respNoTok)).client.get_heritage_sites
          net =
        ⟨(initialClient.authenticate (.ok respNoTok)).client,
          .ret none, []⟩) ∧
    (∀ vd t net,
      (initialClient.authenticate
          (.ok respNoTok)).client.submit_visitor_permit vd t net =
        ⟨(initialClient.authenticate (.ok respNoTok)).client,
          .ret none, []⟩) ∧
    (∀ eid ac t net,
      (initialClient.authenticate (.ok respNoTok)).client.book_event
          eid ac t net =
        ⟨(initialClient.authenticate (.ok respNoTok)).client,
          .ret none, []⟩) := by
  have h : (initialClient.authenticate (.ok respNoTok)).client.access_token =
      Json.null := rfl
  refine ⟨rfl, h, ?_, ?_, ?_⟩ <;> intros <;>
    simp [RCUAPIClient.get_heritage_sites,
      RCUAPIClient.submit_visitor_permit, RCUAPIClient.book_event, h,
      Json.truthy]
